import Mathlib

/-!
Verification of the OpenTitan provisioning `otlib_wrapper` FFI library
(`src/ate/test_programs/otlib_wrapper/src/lib.rs`) against its
natural-language specification.

The embedding models the pure data-processing core of the wrapper:
 * the CRC-32 (ISO-HDLC) console-payload integrity check (`check_console_crc`),
 * the success/failure/timeout handling and fixed-capacity frame chunking of
   `OtLibConsoleRx`,
 * the strap/reset/connect/trigger/verify/teardown event sequence of
   `OtLibLcTransition` (with external hardware responses supplied as oracle
   parameters), and
 * the post-`ROM_EXT` boot-marker dispatch of `OtLibCheckTransportImgBoot`.

Byte strings are modelled as `List Nat` (each element a byte value).
Rust panics are modelled as distinguished error values naming the panic site.
-/

set_option maxRecDepth 100000

/-! ## Frame data model -/

/-- `CONSOLE_BUFFER_MAX_SIZE`: the fixed SPI console frame capacity
(must match `kDutTxMaxSpiFrameSizeInBytes`). -/
def CONSOLE_BUFFER_MAX_SIZE : Nat := 2020

/-- `DutSpiFrame`: a caller-allocated frame buffer (2020-byte payload array plus
an occupied-size field).  The payload is modelled as a byte list. -/
structure DutSpiFrame where
  payload : List Nat
  size : Nat
deriving DecidableEq, Repr

/-! ## CRC-32 (ISO-HDLC) -/

/-- The reflected CRC-32 (ISO-HDLC) polynomial `0xEDB88320`
(bit-reversal of `0x04C11DB7`). -/
def CRC32_ISO_HDLC_POLY : Nat := 0xEDB88320

/-- One bit-step of the reflected CRC-32 update. -/
def crc32Round (c : Nat) : Nat :=
  if c % 2 = 1 then (c / 2) ^^^ CRC32_ISO_HDLC_POLY else c / 2

/-- Iterate `crc32Round`. -/
def crc32Rounds : Nat → Nat → Nat
  | 0, c => c
  | k + 1, c => crc32Rounds k (crc32Round c)

/-- Absorb one byte into the running CRC (8 bit-steps). -/
def crc32Update (c b : Nat) : Nat := crc32Rounds 8 (c ^^^ b % 256)

/-- CRC-32 (ISO-HDLC) of a byte string: init `0xFFFFFFFF`, reflected
polynomial `0xEDB88320`, final xor `0xFFFFFFFF`.  This is the checksum
computed by `Crc::<u32>::new(&CRC_32_ISO_HDLC).checksum(..)` in the source. -/
def crc32 (bytes : List Nat) : Nat :=
  (bytes.foldl crc32Update 0xFFFFFFFF) ^^^ 0xFFFFFFFF

/-! ## Decimal parsing (`str::parse::<u32>` on a regex-captured digit string) -/

/-- ASCII decimal digit test. -/
def isDigitByte (b : Nat) : Bool := 48 ≤ b && b ≤ 57

/-- `parseU32 s`: Rust `s.parse::<u32>()` on the captured CRC field.
Returns `none` on an empty string, a non-digit byte, or 32-bit overflow. -/
def parseU32 (s : List Nat) : Option Nat :=
  if s = [] then none
  else if !(s.all isDigitByte) then none
  else
    let v := s.foldl (fun acc b => acc * 10 + (b - 48)) 0
    if v < 4294967296 then some v else none

/-! ## `check_console_crc` -/

/-- The two distinct failure modes of `check_console_crc`: the `?` on
`crc_str.parse::<u32>()` and the explicit `ConsoleError::GenericError`
on checksum inequality. -/
inductive CrcCheckError
  | parseFailed
  | mismatch
deriving DecidableEq, Repr

/-- `check_console_crc(json_str, crc_str)`: parse the decimal CRC field,
compute CRC-32 (ISO-HDLC) over the raw payload bytes, require equality. -/
def check_console_crc (json_str crc_str : List Nat) : Except CrcCheckError Unit :=
  match parseU32 crc_str with
  | none => .error .parseFailed
  | some crc =>
    let actual_crc := crc32 json_str
    if crc ≠ actual_crc then .error .mismatch else .ok ()

/-! ## `OtLibConsoleRx` -/

/-- Result of `console.interact(..)`: which exit regex matched, with the two
capture groups (`payload`, `crcStr`), or a timeout. -/
inductive InteractResult
  | exitSuccess (payload crcStr : List Nat)
  | exitFailure (payload crcStr : List Nat)
  | timedOut
deriving DecidableEq, Repr

/-- The panic sites of `OtLibConsoleRx`, as error values:
`expect("CRC check failed.")` / `.unwrap()` on `check_console_crc`,
the not-enough-frames panic, the `panic!("{}", json_str)` on a
`RESP_ERR` match, and the `panic!("Timed Out")`. -/
inductive RxError
  | crcCheckFailed (e : CrcCheckError)
  | insufficientFrames (numFrames payloadLen : Nat)
  | remoteRejected (payload : List Nat)
  | timedOut
deriving DecidableEq, Repr

/-- Outcome of `OtLibConsoleRx`: on success, the final frame array and the
frame count written back through `num_frames`; on a panic, the panic value
together with the state of the caller's frame buffers at the panic point. -/
inductive RxOutcome
  | ok (frames : List DutSpiFrame) (numFrames : Nat)
  | err (e : RxError) (frames : List DutSpiFrame)
deriving DecidableEq, Repr

/-- `num_frames_required = (json_str.len() + CONSOLE_BUFFER_MAX_SIZE - 1)
/ CONSOLE_BUFFER_MAX_SIZE`. -/
def numFramesRequired (len : Nat) : Nat :=
  (len + CONSOLE_BUFFER_MAX_SIZE - 1) / CONSOLE_BUFFER_MAX_SIZE

/-- The chunk written to frame `i`:
`&json_str.as_bytes()[start..end]` with `start = i * CONSOLE_BUFFER_MAX_SIZE`
and `end = (start + CONSOLE_BUFFER_MAX_SIZE).min(json_str.len())`. -/
def chunkAt (p : List Nat) (i : Nat) : List Nat :=
  (p.take (min (i * CONSOLE_BUFFER_MAX_SIZE + CONSOLE_BUFFER_MAX_SIZE) p.length)).drop
    (i * CONSOLE_BUFFER_MAX_SIZE)

/-- One iteration body of the frame-fill loop:
`spi_frame.payload[..chunk_len].copy_from_slice(chunk); spi_frame.size = chunk_len;`
(bytes of the frame array beyond `chunk_len` are left as they were). -/
def writeFrame (p : List Nat) (i : Nat) (f : DutSpiFrame) : DutSpiFrame :=
  let chunk := chunkAt p i
  { payload := chunk ++ f.payload.drop chunk.length, size := chunk.length }

/-- The frame-fill loop of `OtLibConsoleRx`:
`for (i, spi_frame) in spi_frames.iter_mut().enumerate()` writing chunk `i`
while `i < n`, breaking (leaving the remaining frames untouched) at `i = n`. -/
def writeFrames (p : List Nat) (n : Nat) : Nat → List DutSpiFrame → List DutSpiFrame
  | _, [] => []
  | i, f :: rest =>
    if i < n then writeFrame p i f :: writeFrames p n (i + 1) rest
    else f :: rest

/-- The success-delivery stage of `OtLibConsoleRx`: compute the required frame
count, panic if the caller's buffer count is smaller (before writing anything),
otherwise fill the frames and report the count used. -/
def deliverSuccess (payload : List Nat) (frames : List DutSpiFrame) : RxOutcome :=
  if frames.length < numFramesRequired payload.length then
    .err (.insufficientFrames frames.length payload.length) frames
  else
    .ok (writeFrames payload (numFramesRequired payload.length) 0 frames)
      (numFramesRequired payload.length)

/-- `OtLibConsoleRx` after `console.interact` has returned (the sync wait and
console construction are hardware I/O and precede this logic unchanged):
dispatch on the exit status, CRC-check the captured payload (success path:
only when `skip_crc_check` is false; failure path: always), then chunk a
success payload into the caller's frames or surface the failure payload. -/
def OtLibConsoleRx (res : InteractResult) (skip_crc_check : Bool)
    (frames : List DutSpiFrame) : RxOutcome :=
  match res with
  | .exitSuccess payload crcStr =>
    if skip_crc_check = false then
      match check_console_crc payload crcStr with
      | .error e => .err (.crcCheckFailed e) frames
      | .ok _ => deliverSuccess payload frames
    else deliverSuccess payload frames
  | .exitFailure payload crcStr =>
    match check_console_crc payload crcStr with
    | .error e => .err (.crcCheckFailed e) frames
    | .ok _ => .err (.remoteRejected payload) frames
  | .timedOut => .err .timedOut frames

/-- The bytes a consumer reads back from the first `k` frames:
concatenation of each frame's first `size` payload bytes. -/
def writtenBytes : List DutSpiFrame → Nat → List Nat
  | _, 0 => []
  | [], _ + 1 => []
  | f :: rest, k + 1 => f.payload.take f.size ++ writtenBytes rest k

/-! ## Chunking lemmas -/

theorem numFramesRequired_zero : numFramesRequired 0 = 0 := by decide

theorem le_numFramesRequired_mul (L : Nat) :
    L ≤ numFramesRequired L * CONSOLE_BUFFER_MAX_SIZE := by
  simp only [numFramesRequired, CONSOLE_BUFFER_MAX_SIZE]
  omega

theorem pred_numFramesRequired_mul (L : Nat) (h : 0 < L) :
    (numFramesRequired L - 1) * CONSOLE_BUFFER_MAX_SIZE < L := by
  simp only [numFramesRequired, CONSOLE_BUFFER_MAX_SIZE] at *
  omega

theorem numFramesRequired_pos (L : Nat) (h : 0 < L) : 0 < numFramesRequired L := by
  simp only [numFramesRequired, CONSOLE_BUFFER_MAX_SIZE]
  omega

theorem chunkAt_eq_drop_take (p : List Nat) (i : Nat) :
    chunkAt p i = (p.drop (i * CONSOLE_BUFFER_MAX_SIZE)).take CONSOLE_BUFFER_MAX_SIZE := by
  unfold chunkAt
  rcases Nat.le_total (i * CONSOLE_BUFFER_MAX_SIZE + CONSOLE_BUFFER_MAX_SIZE) p.length with h | h
  · rw [min_eq_left h, List.drop_take]
    congr 1
    omega
  · rw [min_eq_right h, List.take_length]
    refine (List.take_of_length_le ?_).symm
    rw [List.length_drop]
    omega

theorem chunkAt_length (p : List Nat) (i : Nat) :
    (chunkAt p i).length =
      min CONSOLE_BUFFER_MAX_SIZE (p.length - i * CONSOLE_BUFFER_MAX_SIZE) := by
  rw [chunkAt_eq_drop_take, List.length_take, List.length_drop]

theorem writeFrames_length (p : List Nat) (n : Nat) :
    ∀ (bufs : List DutSpiFrame) (i : Nat), (writeFrames p n i bufs).length = bufs.length := by
  intro bufs
  induction bufs with
  | nil => intro i; rfl
  | cons f rest ih =>
    intro i
    unfold writeFrames
    by_cases h : i < n
    · simp [h, ih]
    · simp [h]

theorem writeFrames_getElem? (p : List Nat) (n : Nat) :
    ∀ (bufs : List DutSpiFrame) (i j : Nat),
      (writeFrames p n i bufs)[j]? =
        if i + j < n then (bufs[j]?).map (writeFrame p (i + j)) else bufs[j]? := by
  intro bufs
  induction bufs with
  | nil => intro i j; simp [writeFrames]
  | cons f rest ih =>
    intro i j
    unfold writeFrames
    by_cases h : i < n
    · simp only [if_pos h]
      cases j with
      | zero => simp [h]
      | succ j =>
        simp only [List.getElem?_cons_succ]
        rw [ih (i + 1) j]
        have : i + 1 + j = i + (j + 1) := by omega
        rw [this]
    · have h' : ¬ (i + j < n) := by omega
      simp [h, h']

theorem writeFrames_writtenBytes (p : List Nat) :
    ∀ (m : Nat) (bufs : List DutSpiFrame) (i : Nat),
      m ≤ bufs.length →
      p.length - i * CONSOLE_BUFFER_MAX_SIZE ≤ m * CONSOLE_BUFFER_MAX_SIZE →
      writtenBytes (writeFrames p (i + m) i bufs) m = p.drop (i * CONSOLE_BUFFER_MAX_SIZE) := by
  intro m
  induction m with
  | zero =>
    intro bufs i _ hlen
    have : p.drop (i * CONSOLE_BUFFER_MAX_SIZE) = [] := by
      apply List.drop_eq_nil_of_le
      omega
    simp [writtenBytes, this]
  | succ m ih =>
    intro bufs i hb hlen
    cases bufs with
    | nil => simp at hb
    | cons f rest =>
      have hi : i < i + (m + 1) := by omega
      unfold writeFrames
      rw [if_pos hi]
      show (writeFrame p i f).payload.take (writeFrame p i f).size ++
          writtenBytes (writeFrames p (i + (m + 1)) (i + 1) rest) m =
          p.drop (i * CONSOLE_BUFFER_MAX_SIZE)
      have hhead : (writeFrame p i f).payload.take (writeFrame p i f).size = chunkAt p i := by
        unfold writeFrame
        simp only
        rw [List.take_left]
      have harith : i + (m + 1) = (i + 1) + m := by omega
      have htail : writtenBytes (writeFrames p (i + (m + 1)) (i + 1) rest) m =
          p.drop ((i + 1) * CONSOLE_BUFFER_MAX_SIZE) := by
        rw [harith]
        apply ih rest (i + 1)
        · simpa using Nat.le_of_succ_le_succ (by simpa using hb)
        · have h1 : (i + 1) * CONSOLE_BUFFER_MAX_SIZE =
              i * CONSOLE_BUFFER_MAX_SIZE + CONSOLE_BUFFER_MAX_SIZE := by ring
          have h2 : (m + 1) * CONSOLE_BUFFER_MAX_SIZE =
              m * CONSOLE_BUFFER_MAX_SIZE + CONSOLE_BUFFER_MAX_SIZE := by ring
          rw [h1]
          omega
      rw [hhead, htail, chunkAt_eq_drop_take]
      have : (i + 1) * CONSOLE_BUFFER_MAX_SIZE =
          i * CONSOLE_BUFFER_MAX_SIZE + CONSOLE_BUFFER_MAX_SIZE := by ring
      rw [this, ← List.drop_drop]
      exact List.take_append_drop _ _

/-- Master specification of the success-delivery stage: with enough caller
frames, delivery succeeds, reports `ceil(L/C)` frames, fills every frame to
capacity except the last (which holds the positive remainder), and the
readable bytes of the used frames concatenate back to the payload. -/
theorem deliverSuccess_spec (payload : List Nat) (bufs : List DutSpiFrame)
    (hcap : numFramesRequired payload.length ≤ bufs.length) :
    ∃ frames,
      deliverSuccess payload bufs = .ok frames (numFramesRequired payload.length) ∧
      frames.length = bufs.length ∧
      writtenBytes frames (numFramesRequired payload.length) = payload ∧
      (∀ j, j + 1 < numFramesRequired payload.length →
        ∃ f, frames[j]? = some f ∧ f.size = CONSOLE_BUFFER_MAX_SIZE) ∧
      (∀ j f, j + 1 = numFramesRequired payload.length → frames[j]? = some f →
        f.size = payload.length - j * CONSOLE_BUFFER_MAX_SIZE ∧ 0 < f.size) := by
  set L := payload.length with hLdef
  set n := numFramesRequired L with hndef
  have hnot : ¬ (bufs.length < n) := by omega
  refine ⟨writeFrames payload n 0 bufs, ?_, ?_, ?_, ?_, ?_⟩
  · unfold deliverSuccess
    rw [← hLdef, ← hndef, if_neg hnot]
  · exact writeFrames_length payload n bufs 0
  · have h := writeFrames_writtenBytes payload n bufs 0 hcap
      (by simpa using le_numFramesRequired_mul L)
    simpa using h
  · intro j hj
    have hjb : j < bufs.length := by omega
    have hget := writeFrames_getElem? payload n bufs 0 j
    rw [List.getElem?_eq_getElem hjb] at hget
    have hjn : 0 + j < n := by omega
    rw [if_pos hjn] at hget
    refine ⟨writeFrame payload (0 + j) bufs[j], hget, ?_⟩
    show (chunkAt payload (0 + j)).length = CONSOLE_BUFFER_MAX_SIZE
    rw [chunkAt_length]
    have hL0 : 0 < L := by
      rcases Nat.eq_zero_or_pos L with h0 | h0
      · rw [hndef, h0, numFramesRequired_zero] at hj; omega
      · exact h0
    have hpred := pred_numFramesRequired_mul L hL0
    rw [← hndef] at hpred
    have hz : 0 + j = j := by omega
    rw [hz]
    simp only [CONSOLE_BUFFER_MAX_SIZE] at hpred ⊢
    omega
  · intro j f hj hget
    have hL0 : 0 < L := by
      rcases Nat.eq_zero_or_pos L with h0 | h0
      · rw [hndef, h0, numFramesRequired_zero] at hj; omega
      · exact h0
    have hjb : j < bufs.length := by omega
    have hg := writeFrames_getElem? payload n bufs 0 j
    rw [List.getElem?_eq_getElem hjb] at hg
    have hjn : 0 + j < n := by omega
    rw [if_pos hjn] at hg
    rw [hg] at hget
    have hf : f = writeFrame payload (0 + j) bufs[j] := by
      injection hget with h; exact h.symm
    subst hf
    show (chunkAt payload (0 + j)).length = L - j * CONSOLE_BUFFER_MAX_SIZE ∧
        0 < (chunkAt payload (0 + j)).length
    rw [chunkAt_length]
    have hle := le_numFramesRequired_mul L
    have hpred := pred_numFramesRequired_mul L hL0
    rw [← hndef] at hle hpred
    have hz : 0 + j = j := by omega
    rw [hz]
    simp only [CONSOLE_BUFFER_MAX_SIZE] at hle hpred ⊢
    omega

/-- Sanity: the embedded CRC-32 matches the ISO-HDLC check value
`crc32("123456789") = 0xCBF43926`. -/
theorem crc32_check_value : crc32 [49, 50, 51, 52, 53, 54, 55, 56, 57] = 0xCBF43926 := by
  decide

/-- `check_console_crc` accepts exactly when the CRC field parses as a `u32`
equal to the CRC-32 (ISO-HDLC) of the payload bytes. -/
theorem check_console_crc_ok_iff (p c : List Nat) :
    check_console_crc p c = .ok () ↔ parseU32 c = some (crc32 p) := by
  unfold check_console_crc
  cases hp : parseU32 c with
  | none => simp
  | some v =>
    by_cases hv : v = crc32 p
    · subst hv; simp
    · simp [hv]

/-- A parsed-but-unequal CRC field makes `check_console_crc` fail with the
checksum-mismatch error. -/
theorem check_console_crc_mismatch (p c : List Nat) (v : Nat)
    (hp : parseU32 c = some v) (hv : v ≠ crc32 p) :
    check_console_crc p c = .error .mismatch := by
  unfold check_console_crc
  rw [hp]
  simp [hv]

/-!
## Claim C1 (corrected)

The claim says chunking yields `ceil(L/C)` frames *and exactly one frame of
size 0 when `L = 0`*.  The code computes
`num_frames_required = (L + C - 1) / C`, which is `0` for `L = 0`: the

frame count written back is `0` and no frame is touched — there is no
single empty frame.  The counterexample shows this at `L = 0`; the amended
claim replaces "1 frame of size 0" by "0 frames".
-/

/-- **C1 counterexample**: a zero-length success payload (with a valid CRC
field `"0"`, `crc32 [] = 0`) delivered into one caller frame produces frame
count `0` with the frame untouched — not the single size-0 frame the claim
asserts. -/
theorem consoleRx_zero_len_counterexample :
    OtLibConsoleRx (.exitSuccess [] [48]) false [⟨List.replicate 2020 0, 0⟩] =
      .ok [⟨List.replicate 2020 0, 0⟩] 0 ∧ (0 : Nat) ≠ 1 := by
  constructor
  · rfl
  · decide

/-- **C1 (amended)**: for a success payload of length `L` that passes (or
skips) the CRC stage, with caller frame capacity at least `ceil(L/C)`
(`C = 2020`), `OtLibConsoleRx` succeeds reporting exactly `ceil(L/C)` frames
(`0` frames when `L = 0`), every frame except the last is filled to exactly
`C` bytes, the last frame holds the positive remainder, and concatenating the
frames' occupied bytes in order reproduces the payload exactly. -/
theorem consoleRx_chunking_correct (payload crcStr : List Nat) (skip : Bool)
    (bufs : List DutSpiFrame)
    (hcrc : skip = true ∨ check_console_crc payload crcStr = .ok ())
    (hcap : numFramesRequired payload.length ≤ bufs.length) :
    ∃ frames,
      OtLibConsoleRx (.exitSuccess payload crcStr) skip bufs =
        .ok frames (numFramesRequired payload.length) ∧
      frames.length = bufs.length ∧
      writtenBytes frames (numFramesRequired payload.length) = payload ∧
      (∀ j, j + 1 < numFramesRequired payload.length →
        ∃ f, frames[j]? = some f ∧ f.size = CONSOLE_BUFFER_MAX_SIZE) ∧
      (∀ j f, j + 1 = numFramesRequired payload.length → frames[j]? = some f →
        f.size = payload.length - j * CONSOLE_BUFFER_MAX_SIZE ∧ 0 < f.size) ∧
      (payload.length = 0 → numFramesRequired payload.length = 0) := by
  obtain ⟨frames, h1, h2, h3, h4, h5⟩ := deliverSuccess_spec payload bufs hcap
  refine ⟨frames, ?_, h2, h3, h4, h5, ?_⟩
  · cases skip with
    | true =>
      have hr : OtLibConsoleRx (.exitSuccess payload crcStr) true bufs =
          deliverSuccess payload bufs := rfl
      rw [hr]; exact h1
    | false =>
      rcases hcrc with hs | hok
      · exact absurd hs (by decide)
      · have hr : OtLibConsoleRx (.exitSuccess payload crcStr) false bufs =
            match check_console_crc payload crcStr with
            | .error e => .err (.crcCheckFailed e) bufs
            | .ok _ => deliverSuccess payload bufs := rfl
        rw [hr, hok]; exact h1
  · intro h0
    rw [h0, numFramesRequired_zero]

/-- Witness for the amended C1 theorem: a 1-byte payload with one caller
frame (CRC skipped) yields exactly 1 frame holding the payload. -/
theorem consoleRx_chunking_correct_witness :
    ∃ frames,
      OtLibConsoleRx (.exitSuccess [65] [48]) true [⟨List.replicate 2020 0, 0⟩] =
        .ok frames (numFramesRequired ([65] : List Nat).length) ∧
      frames.length = ([⟨List.replicate 2020 0, 0⟩] : List DutSpiFrame).length ∧
      writtenBytes frames (numFramesRequired ([65] : List Nat).length) = [65] ∧
      (∀ j, j + 1 < numFramesRequired ([65] : List Nat).length →
        ∃ f, frames[j]? = some f ∧ f.size = CONSOLE_BUFFER_MAX_SIZE) ∧
      (∀ j f, j + 1 = numFramesRequired ([65] : List Nat).length → frames[j]? = some f →
        f.size = ([65] : List Nat).length - j * CONSOLE_BUFFER_MAX_SIZE ∧ 0 < f.size) ∧
      (([65] : List Nat).length = 0 → numFramesRequired ([65] : List Nat).length = 0) :=
  consoleRx_chunking_correct [65] [48] true [⟨List.replicate 2020 0, 0⟩] (Or.inl rfl)
    (by decide)

/-!
## Claim C2 (confirmed)

If the caller supplies fewer than `ceil(L/C)` frame buffers, the success path
panics with the not-enough-frames message; the check at line 347 precedes the
fill loop, so the caller's buffers are returned exactly as supplied.
-/

/-- **C2**: for every success payload that passes (or skips) the CRC stage,
if the caller's frame-buffer count is below `ceil(L/2020)` then
`OtLibConsoleRx` fails with the insufficient-frame-capacity error and the
caller's buffers are untouched (the error carries the buffer list exactly as
supplied: the capacity check precedes any write). -/
theorem consoleRx_insufficient_capacity (payload crcStr : List Nat) (skip : Bool)
    (bufs : List DutSpiFrame)
    (hcrc : skip = true ∨ check_console_crc payload crcStr = .ok ())
    (hcap : bufs.length < numFramesRequired payload.length) :
    OtLibConsoleRx (.exitSuccess payload crcStr) skip bufs =
      .err (.insufficientFrames bufs.length payload.length) bufs := by
  have hd : deliverSuccess payload bufs =
      .err (.insufficientFrames bufs.length payload.length) bufs := by
    unfold deliverSuccess
    rw [if_pos hcap]
  cases skip with
  | true =>
    have hr : OtLibConsoleRx (.exitSuccess payload crcStr) true bufs =
        deliverSuccess payload bufs := rfl
    rw [hr, hd]
  | false =>
    rcases hcrc with hs | hok
    · exact absurd hs (by decide)
    · have hr : OtLibConsoleRx (.exitSuccess payload crcStr) false bufs =
          match check_console_crc payload crcStr with
          | .error e => .err (.crcCheckFailed e) bufs
          | .ok _ => deliverSuccess payload bufs := rfl
      rw [hr, hok]
      exact hd

/-- Witness for C2: a 1-byte payload with zero caller frames fails with the
insufficient-frames error, buffers (vacuously) untouched. -/
theorem consoleRx_insufficient_capacity_witness :
    OtLibConsoleRx (.exitSuccess [65] [48]) true [] =
      .err (.insufficientFrames 0 1) [] :=
  consoleRx_insufficient_capacity [65] [48] true [] (Or.inl rfl) (by decide)

/-!
## Claim C5 (confirmed)

With CRC checking enabled, a success payload is delivered exactly when the
decimal CRC field parses as a `u32` equal to the CRC-32 (ISO-HDLC) of the raw
payload bytes; a parsed-but-unequal CRC fails with the mismatch error.
-/

/-- **C5**: with `skip_crc_check = false` and enough caller frames, the
success payload is accepted (the call returns `.ok`) iff the decimal CRC
field parses as a 32-bit value equal to `crc32` of the payload bytes; if the
field parses to a different value the call fails with the CRC-mismatch
error. -/
theorem consoleRx_crc_gate (payload crcStr : List Nat) (bufs : List DutSpiFrame)
    (hcap : numFramesRequired payload.length ≤ bufs.length) :
    ((∃ frames n, OtLibConsoleRx (.exitSuccess payload crcStr) false bufs = .ok frames n) ↔
      parseU32 crcStr = some (crc32 payload)) ∧
    (∀ v, parseU32 crcStr = some v → v ≠ crc32 payload →
      OtLibConsoleRx (.exitSuccess payload crcStr) false bufs =
        .err (.crcCheckFailed .mismatch) bufs) := by
  have hr : OtLibConsoleRx (.exitSuccess payload crcStr) false bufs =
      match check_console_crc payload crcStr with
      | .error e => .err (.crcCheckFailed e) bufs
      | .ok _ => deliverSuccess payload bufs := rfl
  constructor
  · constructor
    · rintro ⟨frames, n, hok⟩
      rw [hr] at hok
      cases hc : check_console_crc payload crcStr with
      | error e => rw [hc] at hok; simp at hok
      | ok u =>
        cases u
        rw [← check_console_crc_ok_iff]
        exact hc
    · intro hp
      have hc : check_console_crc payload crcStr = .ok () :=
        (check_console_crc_ok_iff payload crcStr).mpr hp
      obtain ⟨frames, h1, -, -, -⟩ := deliverSuccess_spec payload bufs hcap
      refine ⟨frames, numFramesRequired payload.length, ?_⟩
      rw [hr, hc]
      exact h1
  · intro v hp hv
    have hc := check_console_crc_mismatch payload crcStr v hp hv
    rw [hr, hc]

/-- Witness for C5: payload `"abc"` with the matching CRC field
`"891568578"` (`crc32 "abc" = 891568578`) is accepted. -/
theorem consoleRx_crc_gate_witness :
    ∃ frames n,
      OtLibConsoleRx (.exitSuccess [97, 98, 99] [56, 57, 49, 53, 54, 56, 53, 55, 56]) false
        [⟨List.replicate 2020 0, 0⟩] = .ok frames n :=
  (consoleRx_crc_gate [97, 98, 99] [56, 57, 49, 53, 54, 56, 53, 55, 56]
    [⟨List.replicate 2020 0, 0⟩] (by decide)).1.mpr (by decide)

/-!
## Claim C6 (confirmed)

With `skip_crc_check = true` the CRC stage is bypassed entirely on the
success path, so even a payload whose declared CRC mismatches is delivered
unmodified.
-/

/-- **C6**: a success payload whose declared CRC field does not match the
computed CRC-32 is still delivered when `skip_crc_check = true` (given enough
caller frames), and the frames reassemble to the payload unmodified. -/
theorem consoleRx_skip_crc_delivers (payload crcStr : List Nat) (bufs : List DutSpiFrame)
    (_hbad : check_console_crc payload crcStr = .error .mismatch)
    (hcap : numFramesRequired payload.length ≤ bufs.length) :
    ∃ frames,
      OtLibConsoleRx (.exitSuccess payload crcStr) true bufs =
        .ok frames (numFramesRequired payload.length) ∧
      writtenBytes frames (numFramesRequired payload.length) = payload := by
  obtain ⟨frames, h1, -, h3, -, -⟩ := deliverSuccess_spec payload bufs hcap
  have hr : OtLibConsoleRx (.exitSuccess payload crcStr) true bufs =
      deliverSuccess payload bufs := rfl
  exact ⟨frames, by rw [hr]; exact h1, h3⟩

/-- Witness for C6: payload `"a"` with the wrong CRC field `"0"`
(`crc32 "a" = 3904355907 ≠ 0`) is still delivered with CRC checking
skipped. -/
theorem consoleRx_skip_crc_delivers_witness :
    ∃ frames,
      OtLibConsoleRx (.exitSuccess [97] [48]) true [⟨List.replicate 2020 0, 0⟩] =
        .ok frames (numFramesRequired ([97] : List Nat).length) ∧
      writtenBytes frames (numFramesRequired ([97] : List Nat).length) = [97] :=
  consoleRx_skip_crc_delivers [97] [48] [⟨List.replicate 2020 0, 0⟩] rfl (by decide)

/-!
## Claim C7 (corrected)

On a `RESP_ERR` match the code first runs `check_console_crc(..).unwrap()`:
if the failure frame's CRC field does not match, the call fails with the CRC
error, not with the remote-rejection error carrying the payload.  The claim
holds only for failure frames whose CRC field is valid.
-/

/-- **C7 counterexample**: failure payload `"x"` with CRC field `"0"`
(`crc32 "x" = 2363233923 ≠ 0`) makes `OtLibConsoleRx` fail with the
CRC-mismatch error, not with the remote-rejection error carrying the payload
as the claim asserts for every matched failure marker. -/
theorem consoleRx_failure_crc_counterexample :
    OtLibConsoleRx (.exitFailure [120] [48]) true [] =
      .err (.crcCheckFailed .mismatch) [] ∧
    RxError.crcCheckFailed .mismatch ≠ RxError.remoteRejected [120] := by
  exact ⟨by decide, by decide⟩

/-- **C7 (amended)**: for every matched failure marker whose CRC field passes
`check_console_crc`, `OtLibConsoleRx` fails with the remote-rejection error
carrying exactly the failure payload (for any `skip_crc_check`: the flag does
not apply to the failure path). -/
theorem consoleRx_remote_rejected (payload crcStr : List Nat) (skip : Bool)
    (bufs : List DutSpiFrame)
    (hok : check_console_crc payload crcStr = .ok ()) :
    OtLibConsoleRx (.exitFailure payload crcStr) skip bufs =
      .err (.remoteRejected payload) bufs := by
  have hr : OtLibConsoleRx (.exitFailure payload crcStr) skip bufs =
      match check_console_crc payload crcStr with
      | .error e => .err (.crcCheckFailed e) bufs
      | .ok _ => .err (.remoteRejected payload) bufs := rfl
  rw [hr, hok]

/-- Witness for the amended C7 theorem: failure payload `"bad_input"` with
its correct CRC field `"351668919"` is surfaced as a remote rejection
carrying `"bad_input"`. -/
theorem consoleRx_remote_rejected_witness :
    OtLibConsoleRx
        (.exitFailure [98, 97, 100, 95, 105, 110, 112, 117, 116]
          [51, 53, 49, 54, 54, 56, 57, 49, 57]) false [] =
      .err (.remoteRejected [98, 97, 100, 95, 105, 110, 112, 117, 116]) [] :=
  consoleRx_remote_rejected [98, 97, 100, 95, 105, 110, 112, 117, 116]
    [51, 53, 49, 54, 54, 56, 57, 49, 57] false [] rfl

/-! ## `OtLibLcTransition` -/

/-- The named pin straps used by `OtLibLcTransition`. -/
inductive Strap
  | romBootstrap
  | pinmuxTapLc
deriving DecidableEq, Repr

/-- JTAG TAPs (`JtagTap`). -/
inductive Tap
  | riscv
  | lc
deriving DecidableEq, Repr

/-- The hardware-visible actions of `OtLibLcTransition`, in program order. -/
inductive LcEv
  | applyStrap (s : Strap)
  | resetTarget
  | connect (tap : Tap)
  | triggerTransition (state : Nat) (token : Option (List Nat))
  | readLcState (v : Nat)
  | disconnect
  | removeStrap (s : Strap)
deriving DecidableEq, Repr

/-- Recogniser for transition-trigger events. -/
def LcEv.isTrigger : LcEv → Bool
  | .triggerTransition _ _ => true
  | _ => false

/-- The panic sites of `OtLibLcTransition`:
`try_into().unwrap()` / `ArrayVec` capacity overflow during token unpacking
(lines 466-469), `into_inner().unwrap()` when the token array is finalized
(line 502), the `expect` on `trigger_lc_transition` (line 519), and the
`assert_eq!` on the post-transition state read-back (line 528). -/
inductive LcFailure
  | tokenUnpack
  | tokenFinalize
  | transitionFailed
  | verifyMismatch
deriving DecidableEq, Repr

/-- Result of a run of `OtLibLcTransition`: the hardware actions performed, in
order, and the panic site if the run panicked (`none` = returned normally). -/
structure LcRun where
  trace : List LcEv
  panicked : Option LcFailure
deriving DecidableEq, Repr

/-- `token_bytes.chunks(4)`: split into 4-byte groups, the last possibly
shorter. -/
def toChunks4 : List Nat → List (List Nat)
  | [] => []
  | b0 :: b1 :: b2 :: b3 :: rest => [b0, b1, b2, b3] :: toChunks4 rest
  | l => [l]

/-- `u32::from_le_bytes(bytes.try_into().unwrap())` on one chunk:
panics (`none`) unless the chunk has exactly 4 bytes. -/
def u32FromLeBytesOpt : List Nat → Option Nat
  | [b0, b1, b2, b3] =>
    some (b0 % 256 + 256 * (b1 % 256) + 65536 * (b2 % 256) + 16777216 * (b3 % 256))
  | _ => none

/-- Collect the per-chunk words; any chunk-conversion panic poisons the
whole collection. -/
def collectWords : List (List Nat) → Option (List Nat)
  | [] => some []
  | c :: cs =>
    match u32FromLeBytesOpt c, collectWords cs with
    | some w, some ws => some (w :: ws)
    | _, _ => none

/-- `token_bytes.chunks(4).map(u32::from_le_bytes(..try_into().unwrap()))
.collect::<ArrayVec<u32, 4>>()`: `none` models the panic (a short chunk fails
`try_into`, more than 4 chunks overflows the `ArrayVec` capacity). -/
def unpackToken (bytes : List Nat) : Option (List Nat) :=
  if (toChunks4 bytes).length > 4 then none
  else collectWords (toChunks4 bytes)

/-- Modelled from the spec: `trigger_lc_transition` (from
`opentitanlib::test_utils::lc_transition`, not part of this repository)
sends the target life-cycle state and the optional token to the DUT.  Per the
spec, "absence of a required token is a caller error, not silently
tolerated", so the trigger fails when the target state requires a token and
none is supplied; otherwise its success is the hardware's to decide,
modelled by the oracle `hwOk`. -/
def triggerLcTransition (requiresToken : Bool) (token : Option (List Nat))
    (hwOk : Bool) : Bool :=
  if requiresToken && token.isNone then false else hwOk

/-- `OtLibLcTransition`, as the sequence of hardware actions it performs.
Inputs from the caller: the raw token bytes and the numeric target state.
Oracles for the external world: whether the target state requires a token
(`requiresToken`, consumed by the spec-modelled trigger), whether the
hardware accepts the transition (`hwTriggerOk`), the redundant hardware
encoding function of the lc_ctrl (`redundantEncoding`), and the value read
back from the `LcState` register (`readState`).  Mirrors the source order:
token unpacking; `ROM_BOOTSTRAP` then `PINMUX_TAP_LC` strap application;
reset; LC-TAP connect; token finalization (`into_inner` when
`token_size > 0`); trigger; reconnect; state read-back; `assert_eq!`
verification; teardown (disconnect, remove `PINMUX_TAP_LC`, remove
`ROM_BOOTSTRAP`) — teardown is only reached after the assertion passes. -/
def OtLibLcTransition (tokenBytes : List Nat) (targetState : Nat)
    (requiresToken : Bool) (hwTriggerOk : Bool)
    (redundantEncoding : Nat → Nat) (readState : Nat) : LcRun :=
  match unpackToken tokenBytes with
  | none => { trace := [], panicked := some .tokenUnpack }
  | some words =>
    let pre : List LcEv :=
      [.applyStrap .romBootstrap, .applyStrap .pinmuxTapLc, .resetTarget, .connect .lc]
    if tokenBytes.length > 0 ∧ words.length ≠ 4 then
      { trace := pre, panicked := some .tokenFinalize }
    else
      let lcToken : Option (List Nat) :=
        if tokenBytes.length > 0 then some words else none
      let trig := pre ++ [.triggerTransition targetState lcToken]
      if triggerLcTransition requiresToken lcToken hwTriggerOk = false then
        { trace := trig, panicked := some .transitionFailed }
      else
        let ver := trig ++ [.connect .lc, .readLcState readState]
        if readState ≠ redundantEncoding targetState then
          { trace := ver, panicked := some .verifyMismatch }
        else
          { trace := ver ++ [.disconnect, .removeStrap .pinmuxTapLc, .removeStrap .romBootstrap],
            panicked := none }

/-! ## Token-unpacking lemmas -/

theorem toChunks4_length (b : List Nat) : (toChunks4 b).length = (b.length + 3) / 4 := by
  induction b using toChunks4.induct with
  | case1 => rfl
  | case2 b0 b1 b2 b3 rest ih =>
    rw [toChunks4]
    simp only [List.length_cons, ih]
    omega
  | case3 l h1 h2 =>
    rcases l with _ | ⟨a, _ | ⟨b, _ | ⟨c, _ | ⟨d, t⟩⟩⟩⟩
    · exact absurd rfl h1
    · simp [toChunks4]
    · simp [toChunks4]
    · simp [toChunks4]
    · exact absurd rfl (h2 a b c d t)

theorem u32FromLeBytesOpt_isSome_iff (c : List Nat) :
    (u32FromLeBytesOpt c).isSome = true ↔ c.length = 4 := by
  rcases c with _ | ⟨a, _ | ⟨b, _ | ⟨x, _ | ⟨d, _ | ⟨e, t⟩⟩⟩⟩⟩ <;>
    simp [u32FromLeBytesOpt]

theorem toChunks4_all4 (b : List Nat) (h : b.length % 4 = 0) :
    ∀ c ∈ toChunks4 b, c.length = 4 := by
  induction b using toChunks4.induct with
  | case1 => intro c hc; rw [toChunks4] at hc; exact absurd hc (by simp)
  | case2 b0 b1 b2 b3 rest ih =>
    intro c hc
    rw [toChunks4] at hc
    rcases List.mem_cons.mp hc with rfl | hc'
    · rfl
    · exact ih (by simp at h ⊢; omega) c hc'
  | case3 l h1 h2 =>
    rcases l with _ | ⟨a, _ | ⟨b, _ | ⟨c, _ | ⟨d, t⟩⟩⟩⟩
    · exact absurd rfl h1
    · simp only [List.length_cons, List.length_nil] at h; omega
    · simp only [List.length_cons, List.length_nil] at h; omega
    · simp only [List.length_cons, List.length_nil] at h; omega
    · exact absurd rfl (h2 a b c d t)

theorem toChunks4_bad (b : List Nat) (h : b.length % 4 ≠ 0) :
    ∃ c ∈ toChunks4 b, c.length ≠ 4 := by
  induction b using toChunks4.induct with
  | case1 => exact absurd rfl h
  | case2 b0 b1 b2 b3 rest ih =>
    have h' : rest.length % 4 ≠ 0 := by simp at h ⊢; omega
    obtain ⟨c, hc, hlen⟩ := ih h'
    refine ⟨c, ?_, hlen⟩
    rw [toChunks4]
    exact List.mem_cons_of_mem _ hc
  | case3 l h1 h2 =>
    rcases l with _ | ⟨a, _ | ⟨b, _ | ⟨c, _ | ⟨d, t⟩⟩⟩⟩
    · exact absurd rfl h1
    · exact ⟨[a], by simp [toChunks4], by simp⟩
    · exact ⟨[a, b], by simp [toChunks4], by simp⟩
    · exact ⟨[a, b, c], by simp [toChunks4], by simp⟩
    · exact absurd rfl (h2 a b c d t)

theorem collectWords_some_of_all4 (chunks : List (List Nat))
    (h : ∀ c ∈ chunks, c.length = 4) :
    ∃ ws, collectWords chunks = some ws ∧ ws.length = chunks.length := by
  induction chunks with
  | nil => exact ⟨[], rfl, rfl⟩
  | cons c cs ih =>
    obtain ⟨ws, hws, hlen⟩ := ih (fun x hx => h x (List.mem_cons_of_mem _ hx))
    have hc : (u32FromLeBytesOpt c).isSome = true :=
      (u32FromLeBytesOpt_isSome_iff c).mpr (h c (List.mem_cons_self c cs))
    obtain ⟨w, hw⟩ := Option.isSome_iff_exists.mp hc
    refine ⟨w :: ws, ?_, by simp [hlen]⟩
    rw [collectWords, hw, hws]

theorem collectWords_none_of_bad (chunks : List (List Nat))
    (h : ∃ c ∈ chunks, c.length ≠ 4) :
    collectWords chunks = none := by
  induction chunks with
  | nil => simp at h
  | cons c cs ih =>
    obtain ⟨x, hx, hlen⟩ := h
    rw [collectWords]
    rcases List.mem_cons.mp hx with rfl | hx'
    · have hu : u32FromLeBytesOpt x = none := by
        cases hu : u32FromLeBytesOpt x with
        | none => rfl
        | some w =>
          exact absurd ((u32FromLeBytesOpt_isSome_iff x).mp (by simp [hu])) hlen
      rw [hu]
    · rw [ih ⟨x, hx', hlen⟩]
      cases u32FromLeBytesOpt c <;> rfl

theorem unpackToken_eq_none_iff (b : List Nat) :
    unpackToken b = none ↔ b.length % 4 ≠ 0 ∨ 16 < b.length := by
  unfold unpackToken
  rw [toChunks4_length]
  by_cases hgt : (b.length + 3) / 4 > 4
  · rw [if_pos hgt]
    simp only [true_iff]
    right
    omega
  · rw [if_neg hgt]
    constructor
    · intro hn
      by_cases hm : b.length % 4 = 0
      · obtain ⟨ws, hws, -⟩ := collectWords_some_of_all4 _ (toChunks4_all4 b hm)
        rw [hws] at hn
        exact absurd hn (by simp)
      · exact Or.inl hm
    · rintro (hm | hsz)
      · exact collectWords_none_of_bad _ (toChunks4_bad b hm)
      · omega

theorem unpackToken_some_length (b : List Nat) (ws : List Nat)
    (h : unpackToken b = some ws) : ws.length = (b.length + 3) / 4 := by
  unfold unpackToken at h
  by_cases hgt : (toChunks4 b).length > 4
  · rw [if_pos hgt] at h; exact absurd h (by simp)
  · rw [if_neg hgt] at h
    by_cases hm : b.length % 4 = 0
    · obtain ⟨ws', hws, hlen⟩ := collectWords_some_of_all4 _ (toChunks4_all4 b hm)
      rw [hws] at h
      injection h with h
      subst h
      rw [hlen, toChunks4_length]
    · rw [collectWords_none_of_bad _ (toChunks4_bad b hm)] at h
      exact absurd h (by simp)

/-! ## Lifecycle-transition run lemmas -/

/-- A run that passes token unpacking, token finalization and the transition
trigger reaches the verification step: it reconnects to the LC TAP, reads the
state register, and either panics on the `assert_eq!` (leaving the trace at
the read) or tears down and returns. -/
theorem lcTransition_run_of_reach (tokenBytes : List Nat) (targetState : Nat)
    (requiresToken hwTriggerOk : Bool) (redundantEncoding : Nat → Nat) (readState : Nat)
    (words : List Nat)
    (hunpack : unpackToken tokenBytes = some words)
    (hfin : ¬(tokenBytes.length > 0 ∧ words.length ≠ 4))
    (htrig : triggerLcTransition requiresToken
      (if tokenBytes.length > 0 then some words else none) hwTriggerOk = true) :
    OtLibLcTransition tokenBytes targetState requiresToken hwTriggerOk
        redundantEncoding readState =
      if readState ≠ redundantEncoding targetState then
        { trace := [.applyStrap .romBootstrap, .applyStrap .pinmuxTapLc, .resetTarget,
                    .connect .lc,
                    .triggerTransition targetState
                      (if tokenBytes.length > 0 then some words else none),
                    .connect .lc, .readLcState readState],
          panicked := some .verifyMismatch }
      else
        { trace := [.applyStrap .romBootstrap, .applyStrap .pinmuxTapLc, .resetTarget,
                    .connect .lc,
                    .triggerTransition targetState
                      (if tokenBytes.length > 0 then some words else none),
                    .connect .lc, .readLcState readState,
                    .disconnect, .removeStrap .pinmuxTapLc, .removeStrap .romBootstrap],
          panicked := none } := by
  unfold OtLibLcTransition
  rw [hunpack]
  dsimp only
  rw [if_neg hfin, if_neg (by rw [htrig]; simp)]
  by_cases hv : readState ≠ redundantEncoding targetState
  · rw [if_pos hv, if_pos hv]; simp
  · rw [if_neg hv, if_neg hv]; simp

/-- A run that passes token unpacking and token finalization panics at the
trigger, panics at the verification `assert_eq!`, or returns normally — it
can no longer fail in the token stages. -/
theorem lcTransition_past_token_stages (tokenBytes : List Nat) (targetState : Nat)
    (requiresToken hwTriggerOk : Bool) (redundantEncoding : Nat → Nat) (readState : Nat)
    (words : List Nat)
    (hunpack : unpackToken tokenBytes = some words)
    (hfin : ¬(tokenBytes.length > 0 ∧ words.length ≠ 4)) :
    (OtLibLcTransition tokenBytes targetState requiresToken hwTriggerOk
        redundantEncoding readState).panicked = some .transitionFailed ∨
    (OtLibLcTransition tokenBytes targetState requiresToken hwTriggerOk
        redundantEncoding readState).panicked = some .verifyMismatch ∨
    (OtLibLcTransition tokenBytes targetState requiresToken hwTriggerOk
        redundantEncoding readState).panicked = none := by
  unfold OtLibLcTransition
  rw [hunpack]
  dsimp only
  rw [if_neg hfin]
  by_cases h1 : triggerLcTransition requiresToken
      (if tokenBytes.length > 0 then some words else none) hwTriggerOk = false
  · rw [if_pos h1]; left; rfl
  · rw [if_neg h1]
    by_cases h2 : readState ≠ redundantEncoding targetState
    · rw [if_pos h2]; right; left; rfl
    · rw [if_neg h2]; right; right; rfl

/-!
## Claim C3 (corrected)

`OtLibLcTransition` performs no token-presence validation of its own.  The
token bytes are unpacked before any hardware action, but an *empty* token
unpacks successfully (to `None`); both straps are then applied, the chip is
reset and the LC TAP connected (lines 479-497) before the token requirement
can matter inside `trigger_lc_transition` (line 509, external to this
repository and modelled from the spec).  So the failure comes at the trigger
step, *after* both straps are applied — not before, as the claim asserts.
-/

/-- **C3 counterexample**: an empty token for a token-requiring target state
(the spec-modelled trigger fails without a required token) panics at the
transition trigger with both `ROM_BOOTSTRAP` and `PINMUX_TAP_LC` strap
applications already in the hardware trace — validation did not precede the
straps. -/
theorem lcTransition_empty_token_counterexample :
    (OtLibLcTransition [] 5 true true (fun s => s) 0).panicked =
      some .transitionFailed ∧
    LcEv.applyStrap .romBootstrap ∈
      (OtLibLcTransition [] 5 true true (fun s => s) 0).trace ∧
    LcEv.applyStrap .pinmuxTapLc ∈
      (OtLibLcTransition [] 5 true true (fun s => s) 0).trace := by
  refine ⟨rfl, ?_, ?_⟩ <;> simp [OtLibLcTransition, unpackToken, toChunks4, collectWords,
    triggerLcTransition]

/-- **C3 (amended)**: for every token-requiring target state, calling
`OtLibLcTransition` with an empty token fails at the transition-trigger step
(whatever the hardware would answer), with both strap applications, the reset
and the LC-TAP connect already performed: the wrapper applies the straps
before anything validates the token requirement. -/
theorem lcTransition_empty_token_fails_after_straps (targetState : Nat)
    (hwTriggerOk : Bool) (redundantEncoding : Nat → Nat) (readState : Nat) :
    OtLibLcTransition [] targetState true hwTriggerOk redundantEncoding readState =
      { trace := [.applyStrap .romBootstrap, .applyStrap .pinmuxTapLc, .resetTarget,
                  .connect .lc, .triggerTransition targetState none],
        panicked := some .transitionFailed } := by
  rfl

/-!
## Claim C4 (corrected)

The post-transition verification is `assert_eq!(state, lc_state.redundant_encoding())`
at line 528, which panics on mismatch *before* the `jtag.disconnect()` and the
two strap removals (lines 530-540).  On the verification-failure path the
operation therefore returns with both straps still applied and JTAG still
connected; teardown happens only on the success path.
-/

/-- **C4 counterexample**: a run that reaches verification and reads a state
different from the redundant encoding of the target panics with the
verification mismatch and its trace contains no disconnect and no strap
removal — the straps are left applied on this failure path, contradicting
the claim that teardown happens on the failure path as well. -/
theorem lcTransition_no_teardown_counterexample :
    (OtLibLcTransition [] 2 false true (fun s => s + 1) 0).panicked =
      some .verifyMismatch ∧
    LcEv.disconnect ∉ (OtLibLcTransition [] 2 false true (fun s => s + 1) 0).trace ∧
    LcEv.removeStrap .pinmuxTapLc ∉
      (OtLibLcTransition [] 2 false true (fun s => s + 1) 0).trace ∧
    LcEv.removeStrap .romBootstrap ∉
      (OtLibLcTransition [] 2 false true (fun s => s + 1) 0).trace := by
  refine ⟨rfl, ?_, ?_, ?_⟩ <;> decide

/-- **C4 (amended)**: for every run of `OtLibLcTransition` that reaches the
post-transition verification step, teardown (JTAG disconnect followed by
removal of both straps) happens if and only if verification succeeds: on a
state-register match the run ends with the full teardown suffix and returns
normally, while on a mismatch the run panics with the verification failure
and performs no disconnect and no strap removal at all. -/
theorem lcTransition_teardown_on_success_only (tokenBytes : List Nat) (targetState : Nat)
    (requiresToken hwTriggerOk : Bool) (redundantEncoding : Nat → Nat) (readState : Nat)
    (words : List Nat)
    (hunpack : unpackToken tokenBytes = some words)
    (hfin : ¬(tokenBytes.length > 0 ∧ words.length ≠ 4))
    (htrig : triggerLcTransition requiresToken
      (if tokenBytes.length > 0 then some words else none) hwTriggerOk = true) :
    (readState = redundantEncoding targetState →
      (OtLibLcTransition tokenBytes targetState requiresToken hwTriggerOk
          redundantEncoding readState).panicked = none ∧
      (OtLibLcTransition tokenBytes targetState requiresToken hwTriggerOk
          redundantEncoding readState).trace =
        [.applyStrap .romBootstrap, .applyStrap .pinmuxTapLc, .resetTarget, .connect .lc,
         .triggerTransition targetState
           (if tokenBytes.length > 0 then some words else none),
         .connect .lc, .readLcState readState,
         .disconnect, .removeStrap .pinmuxTapLc, .removeStrap .romBootstrap]) ∧
    (readState ≠ redundantEncoding targetState →
      (OtLibLcTransition tokenBytes targetState requiresToken hwTriggerOk
          redundantEncoding readState).panicked = some .verifyMismatch ∧
      LcEv.disconnect ∉ (OtLibLcTransition tokenBytes targetState requiresToken hwTriggerOk
          redundantEncoding readState).trace ∧
      LcEv.removeStrap .pinmuxTapLc ∉ (OtLibLcTransition tokenBytes targetState requiresToken
          hwTriggerOk redundantEncoding readState).trace ∧
      LcEv.removeStrap .romBootstrap ∉ (OtLibLcTransition tokenBytes targetState requiresToken
          hwTriggerOk redundantEncoding readState).trace) := by
  have hrun := lcTransition_run_of_reach tokenBytes targetState requiresToken hwTriggerOk
    redundantEncoding readState words hunpack hfin htrig
  constructor
  · intro hv
    rw [hrun, if_neg (by simpa using hv)]
    exact ⟨rfl, rfl⟩
  · intro hv
    rw [hrun, if_pos hv]
    refine ⟨rfl, ?_, ?_, ?_⟩ <;> simp

/-- Witness for the amended C4 theorem: with an empty token and a
non-token-requiring target, a matching read-back (9 = encoding of 2) tears
down and returns; a mismatching read-back (7 ≠ 9) panics with no teardown in
the trace. -/
theorem lcTransition_teardown_on_success_only_witness :
    ((OtLibLcTransition [] 2 false true (fun _ => 9) 9).panicked = none ∧
      (OtLibLcTransition [] 2 false true (fun _ => 9) 9).trace =
        [.applyStrap .romBootstrap, .applyStrap .pinmuxTapLc, .resetTarget, .connect .lc,
         .triggerTransition 2 none, .connect .lc, .readLcState 9,
         .disconnect, .removeStrap .pinmuxTapLc, .removeStrap .romBootstrap]) ∧
    ((OtLibLcTransition [] 2 false true (fun _ => 9) 7).panicked =
        some .verifyMismatch ∧
      LcEv.disconnect ∉ (OtLibLcTransition [] 2 false true (fun _ => 9) 7).trace ∧
      LcEv.removeStrap .pinmuxTapLc ∉
        (OtLibLcTransition [] 2 false true (fun _ => 9) 7).trace ∧
      LcEv.removeStrap .romBootstrap ∉
        (OtLibLcTransition [] 2 false true (fun _ => 9) 7).trace) :=
  ⟨(lcTransition_teardown_on_success_only [] 2 false true (fun _ => 9) 9 []
      rfl (by decide) rfl).1 rfl,
   (lcTransition_teardown_on_success_only [] 2 false true (fun _ => 9) 7 []
      rfl (by decide) rfl).2 (by decide)⟩

/-!
## Claim C8 (confirmed)

After a successful trigger the code reconnects to the LC TAP (lines 522-526),
reads the `LcState` register (line 527) and asserts equality with
`lc_state.redundant_encoding()` (line 528); a mismatch panics, and the run
contains exactly one trigger — there is no retry anywhere in the function.
-/

/-- **C8**: in every run whose transition trigger succeeds, the trigger event
is immediately followed by a fresh LC-TAP connect and a read of the
life-cycle state register; a read-back different from the redundant hardware
encoding of the target state is a fatal verification failure; and the whole
run contains exactly one transition trigger (no automatic retry). -/
theorem lcTransition_verify_after_trigger (tokenBytes : List Nat) (targetState : Nat)
    (requiresToken hwTriggerOk : Bool) (redundantEncoding : Nat → Nat) (readState : Nat)
    (words : List Nat)
    (hunpack : unpackToken tokenBytes = some words)
    (hfin : ¬(tokenBytes.length > 0 ∧ words.length ≠ 4))
    (htrig : triggerLcTransition requiresToken
      (if tokenBytes.length > 0 then some words else none) hwTriggerOk = true) :
    (∃ post,
      (OtLibLcTransition tokenBytes targetState requiresToken hwTriggerOk
          redundantEncoding readState).trace =
        [.applyStrap .romBootstrap, .applyStrap .pinmuxTapLc, .resetTarget, .connect .lc,
         .triggerTransition targetState
           (if tokenBytes.length > 0 then some words else none),
         .connect .lc, .readLcState readState] ++ post) ∧
    (readState ≠ redundantEncoding targetState →
      (OtLibLcTransition tokenBytes targetState requiresToken hwTriggerOk
          redundantEncoding readState).panicked = some .verifyMismatch) ∧
    ((OtLibLcTransition tokenBytes targetState requiresToken hwTriggerOk
        redundantEncoding readState).trace.countP (fun e => LcEv.isTrigger e)) = 1 := by
  have hrun := lcTransition_run_of_reach tokenBytes targetState requiresToken hwTriggerOk
    redundantEncoding readState words hunpack hfin htrig
  by_cases hv : readState ≠ redundantEncoding targetState
  · rw [hrun, if_pos hv]
    refine ⟨⟨[], by simp⟩, fun _ => rfl, ?_⟩
    simp [List.countP_cons, LcEv.isTrigger]
  · rw [hrun, if_neg hv]
    refine ⟨⟨[.disconnect, .removeStrap .pinmuxTapLc, .removeStrap .romBootstrap], by simp⟩,
      fun h => absurd h hv, ?_⟩
    simp [List.countP_cons, LcEv.isTrigger]

/-- Witness for C8: an empty-token run (no token required) with a mismatching
read-back: the trace is the seven pre-teardown events with the fresh connect
and the register read right after the trigger, the panic is the verification
failure, and exactly one trigger occurred. -/
theorem lcTransition_verify_after_trigger_witness :
    (∃ post,
      (OtLibLcTransition [] 2 false true (fun _ => 9) 7).trace =
        [.applyStrap .romBootstrap, .applyStrap .pinmuxTapLc, .resetTarget, .connect .lc,
         .triggerTransition 2 none, .connect .lc, .readLcState 7] ++ post) ∧
    ((7 : Nat) ≠ (fun _ => 9) 2 →
      (OtLibLcTransition [] 2 false true (fun _ => 9) 7).panicked =
        some .verifyMismatch) ∧
    ((OtLibLcTransition [] 2 false true (fun _ => 9) 7).trace.countP
      (fun e => LcEv.isTrigger e)) = 1 :=
  lcTransition_verify_after_trigger [] 2 false true (fun _ => 9) 7 []
    rfl (by decide) rfl

/-!
## Claim C10 (confirmed)

Token sizes: `chunks(4)` + `try_into().unwrap()` + `ArrayVec<u32, 4>` panic
during unpacking — before any strap — for any size that is not a multiple of
4 or exceeds 16 bytes; `into_inner().unwrap()` at line 502 panics — after the
straps are applied — for sizes 4, 8 and 12; sizes 0 and 16 pass both token
stages.
-/

/-- **C10**: `OtLibLcTransition` accepts only `token_size = 0` or
`token_size = 16`.  A size that is not a multiple of 4 or exceeds 16 bytes
panics during token unpacking with an empty hardware trace (before any
strap); a nonzero multiple of 4 below 16 panics when the token array is
finalized, with both straps already applied; sizes 0 and 16 survive both
token stages. -/
theorem lcTransition_token_sizes (tokenBytes : List Nat) (targetState : Nat)
    (requiresToken hwTriggerOk : Bool) (redundantEncoding : Nat → Nat) (readState : Nat) :
    (tokenBytes.length % 4 ≠ 0 ∨ 16 < tokenBytes.length →
      OtLibLcTransition tokenBytes targetState requiresToken hwTriggerOk
          redundantEncoding readState =
        { trace := [], panicked := some .tokenUnpack }) ∧
    (tokenBytes.length % 4 = 0 → 0 < tokenBytes.length → tokenBytes.length < 16 →
      (OtLibLcTransition tokenBytes targetState requiresToken hwTriggerOk
          redundantEncoding readState).panicked = some .tokenFinalize ∧
      (OtLibLcTransition tokenBytes targetState requiresToken hwTriggerOk
          redundantEncoding readState).trace =
        [.applyStrap .romBootstrap, .applyStrap .pinmuxTapLc, .resetTarget, .connect .lc]) ∧
    (tokenBytes.length = 0 ∨ tokenBytes.length = 16 →
      (OtLibLcTransition tokenBytes targetState requiresToken hwTriggerOk
          redundantEncoding readState).panicked ≠ some .tokenUnpack ∧
      (OtLibLcTransition tokenBytes targetState requiresToken hwTriggerOk
          redundantEncoding readState).panicked ≠ some .tokenFinalize) := by
  refine ⟨?_, ?_, ?_⟩
  · intro hbad
    have hn : unpackToken tokenBytes = none := (unpackToken_eq_none_iff tokenBytes).mpr hbad
    unfold OtLibLcTransition
    rw [hn]
  · intro hm h0 h16
    have hs : unpackToken tokenBytes ≠ none := by
      intro hcon
      rcases (unpackToken_eq_none_iff tokenBytes).mp hcon with h | h <;> omega
    obtain ⟨words, hw⟩ := Option.ne_none_iff_exists'.mp hs
    have hlen : words.length = (tokenBytes.length + 3) / 4 :=
      unpackToken_some_length tokenBytes words hw
    have hne4 : words.length ≠ 4 := by omega
    unfold OtLibLcTransition
    rw [hw]
    dsimp only
    rw [if_pos ⟨h0, hne4⟩]
    exact ⟨rfl, rfl⟩
  · intro hsz
    have hs : unpackToken tokenBytes ≠ none := by
      intro hcon
      rcases (unpackToken_eq_none_iff tokenBytes).mp hcon with h | h
      · rcases hsz with h' | h' <;> omega
      · rcases hsz with h' | h' <;> omega
    obtain ⟨words, hw⟩ := Option.ne_none_iff_exists'.mp hs
    have hlen : words.length = (tokenBytes.length + 3) / 4 :=
      unpackToken_some_length tokenBytes words hw
    have hfin : ¬(tokenBytes.length > 0 ∧ words.length ≠ 4) := by
      rcases hsz with h | h
      · rw [h] at hlen
        omega
      · rw [h] at hlen
        omega
    rcases lcTransition_past_token_stages tokenBytes targetState requiresToken hwTriggerOk
        redundantEncoding readState words hw hfin with h | h | h <;>
      rw [h] <;> exact ⟨by simp, by simp⟩

/-- Witness for C10: a 3-byte token panics at unpacking with an empty trace;
a 4-byte token panics at finalization with both straps applied; a 16-byte
token passes both token stages. -/
theorem lcTransition_token_sizes_witness :
    OtLibLcTransition [1, 2, 3] 5 false true (fun s => s) 0 =
      { trace := [], panicked := some .tokenUnpack } ∧
    ((OtLibLcTransition [1, 2, 3, 4] 5 false true (fun s => s) 0).panicked =
        some .tokenFinalize ∧
      (OtLibLcTransition [1, 2, 3, 4] 5 false true (fun s => s) 0).trace =
        [.applyStrap .romBootstrap, .applyStrap .pinmuxTapLc, .resetTarget, .connect .lc]) ∧
    ((OtLibLcTransition (List.range 16) 5 false true (fun s => s) 0).panicked ≠
        some .tokenUnpack ∧
      (OtLibLcTransition (List.range 16) 5 false true (fun s => s) 0).panicked ≠
        some .tokenFinalize) :=
  ⟨(lcTransition_token_sizes [1, 2, 3] 5 false true (fun s => s) 0).1 (by decide),
   (lcTransition_token_sizes [1, 2, 3, 4] 5 false true (fun s => s) 0).2.1
     (by decide) (by decide) (by decide),
   (lcTransition_token_sizes (List.range 16) 5 false true (fun s => s) 0).2.2
     (by decide)⟩

/-! ## `OtLibCheckTransportImgBoot` -/

/-- The bytes of the failure marker `"UDS certificate not valid"`
(must match `dice_chain.c`). -/
def udsCertFailureMsg : List Nat :=
  [85, 68, 83, 32, 99, 101, 114, 116, 105, 102, 105, 99, 97, 116, 101, 32,
   110, 111, 116, 32, 118, 97, 108, 105, 100]

/-- The bytes of the boot-fault tag `"BFV:"`. -/
def bfvTag : List Nat := [66, 70, 86, 58]

/-- Result of the second `UartConsole::wait_for` (after `ROM_EXT` booted):
the full regex match `captures[0]`, a timeout (`e.to_string()` contains
`"Timed Out"`), or some other wait error. -/
inductive WaitBootResult
  | matched (capture : List Nat)
  | timedOut
  | otherError (msg : List Nat)
deriving DecidableEq, Repr

/-- The panic sites of `OtLibCheckTransportImgBoot` after the `ROM_EXT`
marker: the invalid-UDS-certificate panic, the boot-fault panic, and the
re-raised wait error. -/
inductive BootCheckError
  | udsCertInvalid
  | bootFault
  | waitFailed (res : WaitBootResult)
deriving DecidableEq, Repr

/-- `OtLibCheckTransportImgBoot` after the first-stage `ROM_EXT` marker has
been seen: dispatch on the result of waiting for
`UDS certificate not valid | BFV:.*\r\n` (plus the caller's success marker
when `owner_fw_boot_msg` is non-empty).  A capture equal to the certificate
failure message or starting with `BFV:` is a fatal error; a timeout is the
expected success outcome exactly when no caller marker is configured;
any other wait error is re-raised. -/
def OtLibCheckTransportImgBoot (owner_fw_boot_msg : List Nat)
    (res : WaitBootResult) : Except BootCheckError Unit :=
  match res with
  | .matched capture =>
    if capture = udsCertFailureMsg then .error .udsCertInvalid
    else if bfvTag.isPrefixOf capture then .error .bootFault
    else .ok ()
  | .timedOut =>
    if owner_fw_boot_msg = [] then .ok () else .error (.waitFailed .timedOut)
  | .otherError msg => .error (.waitFailed (.otherError msg))

/-!
## Claim C9 (confirmed)

After `ROM_EXT` boots, an empty caller marker makes a timeout of the
failure-marker wait the successful outcome (lines 597-600), while a match of
`UDS certificate not valid` or of a `BFV:`-prefixed capture panics
(lines 587-596).
-/

/-- **C9**: with no caller-supplied success marker, a timeout while waiting
for the failure markers is a normal (successful) return; matching the
`UDS certificate not valid` marker is a fatal error for any caller marker;
and matching a `BFV:`-prefixed capture is a fatal boot-fault error for any
caller marker. -/
theorem checkBoot_timeout_ok_markers_fatal (owner_fw_boot_msg capture : List Nat)
    (hbfv : bfvTag.isPrefixOf capture = true) :
    OtLibCheckTransportImgBoot [] .timedOut = .ok () ∧
    OtLibCheckTransportImgBoot owner_fw_boot_msg (.matched udsCertFailureMsg) =
      .error .udsCertInvalid ∧
    OtLibCheckTransportImgBoot owner_fw_boot_msg (.matched capture) =
      .error .bootFault := by
  refine ⟨rfl, rfl, ?_⟩
  have hne : capture ≠ udsCertFailureMsg := by
    intro h
    rw [h] at hbfv
    exact absurd hbfv (by decide)
  unfold OtLibCheckTransportImgBoot
  dsimp only
  rw [if_neg hne, if_pos hbfv]

/-- Witness for C9: the capture `"BFV:0"` is `BFV:`-prefixed and fatal, the
timeout with an empty caller marker succeeds, and the UDS message is
fatal. -/
theorem checkBoot_timeout_ok_markers_fatal_witness :
    OtLibCheckTransportImgBoot [] .timedOut = .ok () ∧
    OtLibCheckTransportImgBoot [] (.matched udsCertFailureMsg) =
      .error .udsCertInvalid ∧
    OtLibCheckTransportImgBoot [] (.matched [66, 70, 86, 58, 48]) =
      .error .bootFault :=
  checkBoot_timeout_ok_markers_fatal [] [66, 70, 86, 58, 48] (by decide)
